import Mathlib

/-!
Shallow embedding of the Fleet REST client (package fleet) of the
rarmstrong73/go-utils repository, primarily the error-returning variant in
src/unnamed/part_002, plus the GetUnit of src/fleet/fleet.go where a claim
cites it.  Servers are modelled as oracles from the requested URL to the
observable outcome of the request (transport failure, body-read failure,
JSON-decode failure, or a decoded page); each operation returns the list of
URLs it requested together with its Go return values.  Loops that the Go
code runs without a bound are given explicit fuel; a result of none means
the fuel ran out before the loop finished.
-/

namespace Fleet

/-- Package-level var port = 49153. -/
def port : Nat := 49153

/-- Package-level var apiVersion = "v1". -/
def apiVersion : String := "v1"

/-- URL of the units collection: http://host:49153/fleet/v1/units. -/
def unitsURL (host : String) : String :=
  "http://" ++ host ++ ":" ++ toString port ++ "/fleet/" ++ apiVersion ++ "/units"

/-- URL of the state collection: http://host:49153/fleet/v1/state. -/
def stateURL (host : String) : String :=
  "http://" ++ host ++ ":" ++ toString port ++ "/fleet/" ++ apiVersion ++ "/state"

/-- URL of the machines collection: http://host:49153/fleet/v1/machines. -/
def machinesURL (host : String) : String :=
  "http://" ++ host ++ ":" ++ toString port ++ "/fleet/" ++ apiVersion ++ "/machines"

/-- URL of one named unit: http://host:49153/fleet/v1/units/name. -/
def unitURL (host name : String) : String := unitsURL host ++ "/" ++ name

/-- Go type Option: a single option in a fleet unit file. -/
structure UnitOption where
  Name : String
  Section : String
  Value : String
deriving DecidableEq, Repr

/-- Go type Unit: a fleet unit. -/
structure Unit where
  CurrentState : String
  DesiredState : String
  Name : String
  Options : List UnitOption
deriving DecidableEq, Repr

/-- The zero value of the Go Unit struct. -/
def Unit.zero : Unit := { CurrentState := "", DesiredState := "", Name := "", Options := [] }

/-- Go type UnitState: a unit state. -/
structure UnitState where
  Hash : String
  MachineID : String
  Name : String
  SystemdActiveState : String
  SystemdLoadState : String
  SystemdSubState : String
deriving DecidableEq, Repr

/-- Go type Machine; the metadata map is modelled as an association list. -/
structure Machine where
  ID : String
  PrimaryIP : String
  Metadata : List (String × String)
deriving DecidableEq, Repr

/-- Go type Error: the code and message of a fleet error envelope. -/
structure Error where
  Code : Int
  Message : String
deriving DecidableEq, Repr

/-- One decoded page of a paginated listing: the common shape of the Go
types UnitsResponse, UnitStateResponse and MachinesResponse
(nextPageToken plus the slice of items). -/
structure Page (α : Type) where
  nextPageToken : String
  items : List α
deriving DecidableEq, Repr

/-- Observable outcome of one paginated GET, as seen by the Go code:
http.Get fails, ioutil.ReadAll fails, json.Unmarshal fails (leftover is
whatever the unmarshal left in the freshly zeroed destination struct), or
the body decodes to a page. -/
inductive Resp (α : Type) where
  | getFail (msg : String)
  | readFail (msg : String)
  | decodeFail (msg : String) (leftover : Page α)
  | ok (p : Page α)
deriving DecidableEq, Repr

/-- Errors the fleet client returns to its caller: transport covers
http.Get and ioutil.ReadAll failures, decode covers json.Unmarshal
failures, remote is the error built by handleError from the service's
error envelope via fmt.Errorf. -/
inductive FleetError where
  | transportErr (msg : String)
  | decodeErr (msg : String)
  | remoteErr (code : Int) (message : String)
deriving DecidableEq, Repr

/-- The text of a returned error; a remote error prints as produced by
fmt.Errorf with the code, a colon and a space, and the message. -/
def FleetError.text : FleetError → String
  | .transportErr m => m
  | .decodeErr m => m
  | .remoteErr c m => toString c ++ ": " ++ m

/-- A Go (slice, error) return pair of a fetch. -/
abbrev FetchRet (α : Type) := List α × Option FleetError

/-- Outcome of running a Go function that may call log.Fatal: either it
returns a value or it aborts the whole process. -/
inductive RunResult (β : Type) where
  | out (b : β)
  | fatal (msg : String)
deriving DecidableEq, Repr

/-- strings.HasPrefix on the character lists of the two strings. -/
def strStarts (s pre : String) : Bool := pre.data.isPrefixOf s.data

/-- Helper for strings.Contains: does pat occur inside the list. -/
def strContainsAux (pat : List Char) : List Char → Bool
  | [] => pat.isEmpty
  | c :: rest => pat.isPrefixOf (c :: rest) || strContainsAux pat rest

/-- strings.Contains on the character lists of the two strings. -/
def strContains (s sub : String) : Bool := strContainsAux sub.data s.data

/-- The pagination loop of ListUnits (src/unnamed/part_002 lines 108-126):
while the token is non-empty, GET base?nextPageToken=token; a failing
http.Get or ReadAll returns (nil, err); a failing json.Unmarshal is NOT
checked (the assignment goes to the loop-scoped err, and the err returned
after the loop is the function-scoped one, already known nil), so the loop
continues with whatever the unmarshal left behind and the error is
dropped.  Returns the requested URLs and the Go return pair. -/
def paginateDropErr (server : String → Resp α) (url : String) :
    Nat → String → List α → Option (List String × FetchRet α)
  | 0, token, acc => if token = "" then some ([], (acc, none)) else none
  | fuel + 1, token, acc =>
    if token = "" then some ([], (acc, none))
    else
      let nextPageURL := url ++ "?nextPageToken=" ++ token
      match server nextPageURL with
      | Resp.getFail m => some ([nextPageURL], ([], some (FleetError.transportErr m)))
      | Resp.readFail m => some ([nextPageURL], ([], some (FleetError.transportErr m)))
      | Resp.decodeFail _ leftover =>
        Option.map (fun r => (nextPageURL :: r.1, r.2))
          (paginateDropErr server url fuel leftover.nextPageToken (acc ++ leftover.items))
      | Resp.ok p =>
        Option.map (fun r => (nextPageURL :: r.1, r.2))
          (paginateDropErr server url fuel p.nextPageToken (acc ++ p.items))

/-- The pagination loop of ListUnitStates and ListMachines
(src/unnamed/part_002 lines 294-315 and 403-424): identical to the
ListUnits loop except that a failing json.Unmarshal returns (nil, err). -/
def paginateCheckErr (server : String → Resp α) (url : String) :
    Nat → String → List α → Option (List String × FetchRet α)
  | 0, token, acc => if token = "" then some ([], (acc, none)) else none
  | fuel + 1, token, acc =>
    if token = "" then some ([], (acc, none))
    else
      let nextPageURL := url ++ "?nextPageToken=" ++ token
      match server nextPageURL with
      | Resp.getFail m => some ([nextPageURL], ([], some (FleetError.transportErr m)))
      | Resp.readFail m => some ([nextPageURL], ([], some (FleetError.transportErr m)))
      | Resp.decodeFail m _ => some ([nextPageURL], ([], some (FleetError.decodeErr m)))
      | Resp.ok p =>
        Option.map (fun r => (nextPageURL :: r.1, r.2))
          (paginateCheckErr server url fuel p.nextPageToken (acc ++ p.items))

/-- ListUnits (src/unnamed/part_002 lines 86-129): GET the units URL; a
failing http.Get, ReadAll or first-page Unmarshal returns (nil, err);
otherwise run the error-dropping pagination loop from the first page. -/
def ListUnits (server : String → Resp Unit) (host : String) (fuel : Nat) :
    Option (List String × FetchRet Unit) :=
  match server (unitsURL host) with
  | Resp.getFail m => some ([unitsURL host], ([], some (FleetError.transportErr m)))
  | Resp.readFail m => some ([unitsURL host], ([], some (FleetError.transportErr m)))
  | Resp.decodeFail m _ => some ([unitsURL host], ([], some (FleetError.decodeErr m)))
  | Resp.ok p =>
    Option.map (fun r => (unitsURL host :: r.1, r.2))
      (paginateDropErr server (unitsURL host) fuel p.nextPageToken p.items)

/-- ListUnitStates (src/unnamed/part_002 lines 272-318): GET the state
URL; a failing http.Get returns (nil, err), but a failing ReadAll or
first-page Unmarshal calls log.Fatal and aborts the process; otherwise
run the error-checking pagination loop from the first page. -/
def ListUnitStates (server : String → Resp UnitState) (host : String) (fuel : Nat) :
    Option (RunResult (List String × FetchRet UnitState)) :=
  match server (stateURL host) with
  | Resp.getFail m => some (RunResult.out ([stateURL host], ([], some (FleetError.transportErr m))))
  | Resp.readFail m => some (RunResult.fatal m)
  | Resp.decodeFail m _ => some (RunResult.fatal m)
  | Resp.ok p =>
    Option.map (fun r => RunResult.out (stateURL host :: r.1, r.2))
      (paginateCheckErr server (stateURL host) fuel p.nextPageToken p.items)

/-- ListMachines (src/unnamed/part_002 lines 381-426): GET the machines
URL; a failing http.Get, ReadAll or first-page Unmarshal returns
(nil, err); otherwise run the error-checking pagination loop. -/
def ListMachines (server : String → Resp Machine) (host : String) (fuel : Nat) :
    Option (List String × FetchRet Machine) :=
  match server (machinesURL host) with
  | Resp.getFail m => some ([machinesURL host], ([], some (FleetError.transportErr m)))
  | Resp.readFail m => some ([machinesURL host], ([], some (FleetError.transportErr m)))
  | Resp.decodeFail m _ => some ([machinesURL host], ([], some (FleetError.decodeErr m)))
  | Resp.ok p =>
    Option.map (fun r => (machinesURL host :: r.1, r.2))
      (paginateCheckErr server (machinesURL host) fuel p.nextPageToken p.items)

/-- Loop body of ListUnitsByName (src/unnamed/part_002 lines 137-145): a
unit whose name starts with name followed by the at sign is kept; among
those, one whose name contains the two-character marker becomes the
template (overwriting any earlier one), the others are appended. -/
def corStep (name : String) (acc : Unit × List Unit) (u : Unit) : Unit × List Unit :=
  if strStarts u.Name (name ++ "@") then
    if strContains u.Name "@." then (u, acc.2) else (acc.1, acc.2 ++ [u])
  else acc

/-- The correlation pass of ListUnitsByName over the fetched units,
starting from the zero-valued named returns (template Unit, units nil). -/
def correlate (allUnits : List Unit) (name : String) : Unit × List Unit :=
  allUnits.foldl (corStep name) (Unit.zero, [])

/-- ListUnitsByName (src/unnamed/part_002 lines 132-147): fetch all units,
propagate a fetch error as (zero Unit, nil, err), else correlate. -/
def ListUnitsByName (server : String → Resp Unit) (host name : String) (fuel : Nat) :
    Option (Unit × List Unit × Option FleetError) :=
  match ListUnits server host fuel with
  | none => none
  | some (_, (_, some e)) => some (Unit.zero, [], some e)
  | some (_, (allUnits, none)) =>
    let r := correlate allUnits name
    some (r.1, r.2, none)

/-- Result of json.Unmarshal into a freshly zeroed value of the expected
shape: on failure, leftover is whatever the unmarshal left behind. -/
inductive ShapeDec (α : Type) where
  | fail (msg : String) (leftover : α)
  | ok (a : α)
deriving DecidableEq, Repr

/-- Result of json.Unmarshal of a body into the ErrorResponse envelope. -/
inductive EnvDec where
  | fail (msg : String)
  | ok (e : Error)
deriving DecidableEq, Repr

/-- A raw response body, characterized by what the two decoders do on it:
reading it can fail, otherwise it decodes (or not) as the expected success
shape and it decodes (or not) as the ErrorResponse envelope. -/
inductive RawBody (α : Type) where
  | readFail (msg : String)
  | value (shape : ShapeDec α) (envelope : EnvDec)
deriving DecidableEq, Repr

/-- A response to a single non-paginated request: transport failure from
the HTTP client, or a status code with a body. -/
inductive HttpResp (α : Type) where
  | transportFail (msg : String)
  | resp (status : Nat) (body : RawBody α)
deriving DecidableEq, Repr

/-- handleError (src/unnamed/part_002 lines 473-486): a failing ReadAll
returns that error, a failing Unmarshal of the envelope returns that
error, otherwise the error is fmt.Errorf of the envelope code and
message. -/
def handleError : RawBody α → FleetError
  | .readFail m => .transportErr m
  | .value _ (.fail m) => .decodeErr m
  | .value _ (.ok e) => .remoteErr e.Code e.Message

/-- handleError of src/fleet/fleet.go (lines 372-385): same decoding, but
a failing ReadAll or Unmarshal calls log.Fatal and aborts the process. -/
def handleErrorFatal : RawBody α → RunResult FleetError
  | .readFail m => .fatal m
  | .value _ (.fail m) => .fatal m
  | .value _ (.ok e) => .out (.remoteErr e.Code e.Message)

/-- CreateUnit (src/unnamed/part_002 lines 150-181): PUT to the named
unit; a transport failure is returned; status 400, 409 and every other
non-201 status return handleError of the body; 201 succeeds. -/
def CreateUnit (r : HttpResp PUnit) : Option FleetError :=
  match r with
  | .transportFail m => some (.transportErr m)
  | .resp status body =>
    if status = 400 then some (handleError body)
    else if status = 409 then some (handleError body)
    else if status ≠ 201 then some (handleError body)
    else none

/-- ModifyDesiredState (src/unnamed/part_002 lines 184-211, identical for
the Unit and UnitState receivers): PUT to the named unit; a transport
failure is returned; status 400 and every other non-204 status return
handleError of the body; 204 succeeds. -/
def ModifyDesiredState (r : HttpResp PUnit) : Option FleetError :=
  match r with
  | .transportFail m => some (.transportErr m)
  | .resp status body =>
    if status = 400 then some (handleError body)
    else if status ≠ 204 then some (handleError body)
    else none

/-- Destroy (src/unnamed/part_002 lines 244-255, identical for the Unit
and UnitState receivers): DELETE the named unit; a transport failure is
returned; every non-204 status returns handleError of the body; 204
succeeds. -/
def Destroy (r : HttpResp PUnit) : Option FleetError :=
  match r with
  | .transportFail m => some (.transportErr m)
  | .resp status body =>
    if status ≠ 204 then some (handleError body)
    else none

/-- GetUnit (src/unnamed/part_002 lines 446-471): GET the named unit; a
transport failure is returned with the zero Unit; status 404 and every
other non-200 status return handleError of the body; on 200 a failing
ReadAll or Unmarshal is returned with the zero Unit, else the decoded
unit with a nil error. -/
def GetUnit (r : HttpResp Unit) : Unit × Option FleetError :=
  match r with
  | .transportFail m => (Unit.zero, some (.transportErr m))
  | .resp status body =>
    if status = 404 then (Unit.zero, some (handleError body))
    else if status ≠ 200 then (Unit.zero, some (handleError body))
    else
      match body with
      | .readFail m => (Unit.zero, some (.transportErr m))
      | .value sd _ =>
        match sd with
        | .fail m _ => (Unit.zero, some (.decodeErr m))
        | .ok u => (u, none)

/-- GetUnit of src/fleet/fleet.go (lines 351-370): transport and ReadAll
failures call log.Fatal; non-200 statuses go through the fatal-flavored
handleError; on 200 the Unmarshal error is assigned but the function
returns (unit, nil) regardless, so a malformed body yields whatever the
unmarshal left behind together with a nil error. -/
def GetUnitFleetGo (r : HttpResp Unit) : RunResult (Unit × Option FleetError) :=
  match r with
  | .transportFail m => .fatal m
  | .resp status body =>
    if status = 404 then
      match handleErrorFatal body with
      | .fatal m => .fatal m
      | .out e => .out (Unit.zero, some e)
    else if status ≠ 200 then
      match handleErrorFatal body with
      | .fatal m => .fatal m
      | .out e => .out (Unit.zero, some e)
    else
      match body with
      | .readFail m => .fatal m
      | .value sd _ =>
        match sd with
        | .fail _ leftover => .out (leftover, none)
        | .ok u => .out (u, none)

/-- GetUnitStatesByMachineID (src/unnamed/part_002 lines 335-355): one GET
to state?machineID=M; a failing http.Get, ReadAll or Unmarshal returns
(nil, err); otherwise the states of that single response are returned and
its nextPageToken is never read. -/
def GetUnitStatesByMachineID (server : String → Resp UnitState) (host machineID : String) :
    List String × FetchRet UnitState :=
  let url := stateURL host ++ "?machineID=" ++ machineID
  match server url with
  | Resp.getFail m => ([url], ([], some (FleetError.transportErr m)))
  | Resp.readFail m => ([url], ([], some (FleetError.transportErr m)))
  | Resp.decodeFail m _ => ([url], ([], some (FleetError.decodeErr m)))
  | Resp.ok p => ([url], (p.items, none))

/-- GetUnitStatesByUnitName (src/unnamed/part_002 lines 358-378): one GET
to state?unitName=N, otherwise identical to GetUnitStatesByMachineID. -/
def GetUnitStatesByUnitName (server : String → Resp UnitState) (host unitName : String) :
    List String × FetchRet UnitState :=
  let url := stateURL host ++ "?unitName=" ++ unitName
  match server url with
  | Resp.getFail m => ([url], ([], some (FleetError.transportErr m)))
  | Resp.readFail m => ([url], ([], some (FleetError.transportErr m)))
  | Resp.decodeFail m _ => ([url], ([], some (FleetError.decodeErr m)))
  | Resp.ok p => ([url], (p.items, none))

/-- GetStateOfFleet (src/unnamed/part_002 lines 429-443): fetch units,
then unit states, then machines, each against its own server oracle; the
first fetch that returns a non-nil error makes the whole operation return
(nil, nil, nil, err); a log.Fatal inside ListUnitStates aborts the
process. -/
def GetStateOfFleet (su : String → Resp Unit) (ss : String → Resp UnitState)
    (sm : String → Resp Machine) (host : String) (fuel : Nat) :
    Option (RunResult (List Unit × List UnitState × List Machine × Option FleetError)) :=
  match ListUnits su host fuel with
  | none => none
  | some (_, (_, some e)) => some (RunResult.out ([], [], [], some e))
  | some (_, (us, none)) =>
    match ListUnitStates ss host fuel with
    | none => none
    | some (RunResult.fatal m) => some (RunResult.fatal m)
    | some (RunResult.out (_, (_, some e))) => some (RunResult.out ([], [], [], some e))
    | some (RunResult.out (_, (sts, none))) =>
      match ListMachines sm host fuel with
      | none => none
      | some (_, (_, some e)) => some (RunResult.out ([], [], [], some e))
      | some (_, (ms, none)) => some (RunResult.out (us, sts, ms, none))

/-- A server serves, starting from a non-empty continuation token (or the
end, token empty), the given chain of page item-lists: every intermediate
page carries the token of the next one and the last page carries the
empty token. -/
inductive ServesLoop (server : String → Resp α) (base : String) : String → List (List α) → Prop where
  | done : ServesLoop server base "" []
  | step {t tNext : String} {c : List α} {rest : List (List α)} :
      t ≠ "" →
      server (base ++ "?nextPageToken=" ++ t) = Resp.ok { nextPageToken := tNext, items := c } →
      ServesLoop server base tNext rest →
      ServesLoop server base t (c :: rest)

/-- A server serves the given non-empty chain of pages for a listing
endpoint: the bare base URL yields the first page, whose token starts a
ServesLoop chain for the remaining pages. -/
inductive Serves (server : String → Resp α) (base : String) : List (List α) → Prop where
  | intro {t : String} {c : List α} {rest : List (List α)} :
      server base = Resp.ok { nextPageToken := t, items := c } →
      ServesLoop server base t rest →
      Serves server base (c :: rest)

/-- The continuation token the error-dropping loop will use after a
request for the given token (empty meaning the loop stops): transport and
read failures stop the loop, a decode failure continues with the leftover
token, a page continues with its token. -/
def nextTokDrop (server : String → Resp α) (url token : String) : String :=
  if token = "" then ""
  else
    match server (url ++ "?nextPageToken=" ++ token) with
    | Resp.getFail _ => ""
    | Resp.readFail _ => ""
    | Resp.decodeFail _ leftover => leftover.nextPageToken
    | Resp.ok p => p.nextPageToken

/-- The continuation token the error-checking loop will use after a
request for the given token; a decode failure also stops that loop. -/
def nextTokCheck (server : String → Resp α) (url token : String) : String :=
  if token = "" then ""
  else
    match server (url ++ "?nextPageToken=" ++ token) with
    | Resp.getFail _ => ""
    | Resp.readFail _ => ""
    | Resp.decodeFail _ _ => ""
    | Resp.ok p => p.nextPageToken

/-- Iterate nextTokDrop n times from a token. -/
def tokIterDrop (server : String → Resp α) (url : String) : Nat → String → String
  | 0, t => t
  | n + 1, t => tokIterDrop server url n (nextTokDrop server url t)

/-- Iterate nextTokCheck n times from a token. -/
def tokIterCheck (server : String → Resp α) (url : String) : Nat → String → String
  | 0, t => t
  | n + 1, t => tokIterCheck server url n (nextTokCheck server url t)

/-- The token of the first page of a listing response; error outcomes
carry no token worth following. -/
def firstTok : Resp α → String
  | Resp.ok p => p.nextPageToken
  | _ => ""

/-- Modelled from the spec: a unit belongs to the base name iff its name
starts with the base name followed by the at sign. -/
def isMatch (name : String) (u : Unit) : Bool := strStarts u.Name (name ++ "@")

/-- Modelled from the spec: a unit whose name contains the literal
substring of an at sign followed by a dot is the template. -/
def isTemplateName (u : Unit) : Bool := strContains u.Name "@."

/-- Modelled from the spec: the instance units of a base name, in the
order encountered in the fetched list. -/
def instancesSpec (allUnits : List Unit) (name : String) : List Unit :=
  allUnits.filter (fun u => isMatch name u && ! isTemplateName u)

/-- Modelled from the spec: all template-marked units of a base name, in
list order. -/
def templatesOf (allUnits : List Unit) (name : String) : List Unit :=
  allUnits.filter (fun u => isMatch name u && isTemplateName u)

/-- Last element of a list, or the default when the list is empty. -/
def lastD (l : List α) (d : α) : α :=
  match l with
  | [] => d
  | x :: xs => lastD xs x

/-- Modelled from the spec: the template of a base name is the last
template-marked match, or the zero Unit when there is none. -/
def templateSpec (allUnits : List Unit) (name : String) : Unit :=
  lastD (templatesOf allUnits name) Unit.zero

/-! Helper lemmas about the pagination loops. -/

theorem paginateDropErr_empty (server : String → Resp α) (url : String) (fuel : Nat)
    (acc : List α) : paginateDropErr server url fuel "" acc = some ([], (acc, none)) := by
  cases fuel <;> simp [paginateDropErr]

theorem paginateCheckErr_empty (server : String → Resp α) (url : String) (fuel : Nat)
    (acc : List α) : paginateCheckErr server url fuel "" acc = some ([], (acc, none)) := by
  cases fuel <;> simp [paginateCheckErr]

theorem paginateDropErr_ok_step (server : String → Resp α) (url : String) (fuel : Nat)
    (t : String) (ht : t ≠ "") (p : Page α)
    (hs : server (url ++ "?nextPageToken=" ++ t) = Resp.ok p) (acc : List α) :
    paginateDropErr server url (fuel + 1) t acc =
      Option.map (fun r => ((url ++ "?nextPageToken=" ++ t) :: r.1, r.2))
        (paginateDropErr server url fuel p.nextPageToken (acc ++ p.items)) := by
  simp [paginateDropErr, ht, hs]

theorem paginateCheckErr_ok_step (server : String → Resp α) (url : String) (fuel : Nat)
    (t : String) (ht : t ≠ "") (p : Page α)
    (hs : server (url ++ "?nextPageToken=" ++ t) = Resp.ok p) (acc : List α) :
    paginateCheckErr server url (fuel + 1) t acc =
      Option.map (fun r => ((url ++ "?nextPageToken=" ++ t) :: r.1, r.2))
        (paginateCheckErr server url fuel p.nextPageToken (acc ++ p.items)) := by
  simp [paginateCheckErr, ht, hs]

theorem paginateDropErr_serves {α : Type} (server : String → Resp α) (url : String)
    {t : String} {chunks : List (List α)} (h : ServesLoop server url t chunks) :
    ∀ (acc : List α) (fuel : Nat), chunks.length ≤ fuel →
      ∃ log, paginateDropErr server url fuel t acc = some (log, (acc ++ chunks.flatten, none)) := by
  induction h with
  | done =>
      intro acc fuel _
      exact ⟨[], by simp [paginateDropErr_empty]⟩
  | @step t1 tNext c rest ht hs _hrest ih =>
      intro acc fuel hlen
      cases fuel with
      | zero => simp at hlen
      | succ f =>
          have hlen2 : rest.length ≤ f := Nat.le_of_succ_le_succ hlen
          obtain ⟨log, hlog⟩ := ih (acc ++ c) f hlen2
          refine ⟨(url ++ "?nextPageToken=" ++ t1) :: log, ?_⟩
          rw [paginateDropErr_ok_step server url f t1 ht _ hs acc]
          simp [hlog]

theorem paginateCheckErr_serves {α : Type} (server : String → Resp α) (url : String)
    {t : String} {chunks : List (List α)} (h : ServesLoop server url t chunks) :
    ∀ (acc : List α) (fuel : Nat), chunks.length ≤ fuel →
      ∃ log, paginateCheckErr server url fuel t acc = some (log, (acc ++ chunks.flatten, none)) := by
  induction h with
  | done =>
      intro acc fuel _
      exact ⟨[], by simp [paginateCheckErr_empty]⟩
  | @step t1 tNext c rest ht hs _hrest ih =>
      intro acc fuel hlen
      cases fuel with
      | zero => simp at hlen
      | succ f =>
          have hlen2 : rest.length ≤ f := Nat.le_of_succ_le_succ hlen
          obtain ⟨log, hlog⟩ := ih (acc ++ c) f hlen2
          refine ⟨(url ++ "?nextPageToken=" ++ t1) :: log, ?_⟩
          rw [paginateCheckErr_ok_step server url f t1 ht _ hs acc]
          simp [hlog]

theorem paginateDropErr_term {α : Type} (server : String → Resp α) (url : String) :
    ∀ (n : Nat) (t : String) (acc : List α), tokIterDrop server url n t = "" →
      (paginateDropErr server url n t acc).isSome = true := by
  intro n
  induction n with
  | zero =>
      intro t acc h
      simp [tokIterDrop] at h
      simp [h, paginateDropErr]
  | succ m ih =>
      intro t acc h
      by_cases ht : t = ""
      · simp [ht, paginateDropErr_empty]
      · have hnext : tokIterDrop server url m (nextTokDrop server url t) = "" := h
        have hnt : nextTokDrop server url t =
            (match server (url ++ "?nextPageToken=" ++ t) with
              | Resp.getFail _ => ""
              | Resp.readFail _ => ""
              | Resp.decodeFail _ leftover => leftover.nextPageToken
              | Resp.ok p => p.nextPageToken) := by
          simp [nextTokDrop, ht]
        cases hs : server (url ++ "?nextPageToken=" ++ t) with
        | getFail m' => simp [paginateDropErr, ht, hs]
        | readFail m' => simp [paginateDropErr, ht, hs]
        | decodeFail m' leftover =>
            rw [hnt, hs] at hnext
            have := ih leftover.nextPageToken (acc ++ leftover.items) hnext
            simp [paginateDropErr, ht, hs, Option.isSome_map]
            exact this
        | ok p =>
            rw [hnt, hs] at hnext
            have := ih p.nextPageToken (acc ++ p.items) hnext
            simp [paginateDropErr, ht, hs, Option.isSome_map]
            exact this

theorem paginateCheckErr_term {α : Type} (server : String → Resp α) (url : String) :
    ∀ (n : Nat) (t : String) (acc : List α), tokIterCheck server url n t = "" →
      (paginateCheckErr server url n t acc).isSome = true := by
  intro n
  induction n with
  | zero =>
      intro t acc h
      simp [tokIterCheck] at h
      simp [h, paginateCheckErr]
  | succ m ih =>
      intro t acc h
      by_cases ht : t = ""
      · simp [ht, paginateCheckErr_empty]
      · have hnext : tokIterCheck server url m (nextTokCheck server url t) = "" := h
        have hnt : nextTokCheck server url t =
            (match server (url ++ "?nextPageToken=" ++ t) with
              | Resp.getFail _ => ""
              | Resp.readFail _ => ""
              | Resp.decodeFail _ _ => ""
              | Resp.ok p => p.nextPageToken) := by
          simp [nextTokCheck, ht]
        cases hs : server (url ++ "?nextPageToken=" ++ t) with
        | getFail m' => simp [paginateCheckErr, ht, hs]
        | readFail m' => simp [paginateCheckErr, ht, hs]
        | decodeFail m' leftover => simp [paginateCheckErr, ht, hs]
        | ok p =>
            rw [hnt, hs] at hnext
            have := ih p.nextPageToken (acc ++ p.items) hnext
            simp [paginateCheckErr, ht, hs, Option.isSome_map]
            exact this

theorem paginateDropErr_two (server : String → Resp α) (url : String) (f : Nat)
    (t1 t2 : String) (b c : List α) (h1 : t1 ≠ "") (h2 : t2 ≠ "")
    (hs1 : server (url ++ "?nextPageToken=" ++ t1) = Resp.ok { nextPageToken := t2, items := b })
    (hs2 : server (url ++ "?nextPageToken=" ++ t2) = Resp.ok { nextPageToken := "", items := c })
    (acc : List α) :
    paginateDropErr server url (f + 2) t1 acc =
      some ([url ++ "?nextPageToken=" ++ t1, url ++ "?nextPageToken=" ++ t2],
        (acc ++ b ++ c, none)) := by
  rw [paginateDropErr_ok_step server url (f + 1) t1 h1 _ hs1 acc]
  rw [paginateDropErr_ok_step server url f t2 h2 _ hs2 (acc ++ b)]
  simp [paginateDropErr_empty]

theorem paginateCheckErr_two (server : String → Resp α) (url : String) (f : Nat)
    (t1 t2 : String) (b c : List α) (h1 : t1 ≠ "") (h2 : t2 ≠ "")
    (hs1 : server (url ++ "?nextPageToken=" ++ t1) = Resp.ok { nextPageToken := t2, items := b })
    (hs2 : server (url ++ "?nextPageToken=" ++ t2) = Resp.ok { nextPageToken := "", items := c })
    (acc : List α) :
    paginateCheckErr server url (f + 2) t1 acc =
      some ([url ++ "?nextPageToken=" ++ t1, url ++ "?nextPageToken=" ++ t2],
        (acc ++ b ++ c, none)) := by
  rw [paginateCheckErr_ok_step server url (f + 1) t1 h1 _ hs1 acc]
  rw [paginateCheckErr_ok_step server url f t2 h2 _ hs2 (acc ++ b)]
  simp [paginateCheckErr_empty]

/-! Helper lemmas about the correlation pass. -/

theorem correlate_loop (name : String) :
    ∀ (l : List Unit) (t : Unit) (acc : List Unit),
      l.foldl (corStep name) (t, acc) =
        (lastD (templatesOf l name) t, acc ++ instancesSpec l name) := by
  intro l
  induction l with
  | nil => intro t acc; simp [templatesOf, instancesSpec, lastD]
  | cons u l ih =>
      intro t acc
      by_cases hm : strStarts u.Name (name ++ "@") = true
      · by_cases htm : strContains u.Name "@." = true
        · have hstep : corStep name (t, acc) u = (u, acc) := by simp [corStep, hm, htm]
          simp only [List.foldl_cons, hstep, ih]
          simp [templatesOf, instancesSpec, isMatch, isTemplateName, hm, htm,
            List.filter_cons, lastD]
        · have hstep : corStep name (t, acc) u = (t, acc ++ [u]) := by
            simp [corStep, hm, htm]
          simp only [List.foldl_cons, hstep, ih]
          simp [templatesOf, instancesSpec, isMatch, isTemplateName, hm, htm,
            List.filter_cons]
      · have hstep : corStep name (t, acc) u = (t, acc) := by simp [corStep, hm]
        simp only [List.foldl_cons, hstep, ih]
        simp [templatesOf, instancesSpec, isMatch, isTemplateName, hm, List.filter_cons]

theorem correlate_eq (allUnits : List Unit) (name : String) :
    correlate allUnits name = (templateSpec allUnits name, instancesSpec allUnits name) := by
  simp [correlate, templateSpec, correlate_loop]

theorem filter_match_empty (name : String) (q : Unit → Bool) :
    ∀ (l : List Unit), (∀ u ∈ l, isMatch name u = false) →
      l.filter (fun u => isMatch name u && q u) = [] := by
  intro l
  induction l with
  | nil => intro _; rfl
  | cons u l ih =>
      intro h
      have hu : isMatch name u = false := h u (by simp)
      rw [List.filter_cons]
      have hcond : (isMatch name u && q u) = false := by simp [hu]
      rw [hcond]
      simp only [Bool.false_eq_true, if_false]
      exact ih (fun v hv => h v (by simp [hv]))

/-! Helper lemmas about termination of the three listing operations. -/

theorem ListUnits_term (su : String → Resp Unit) (host : String) (n : Nat)
    (h : tokIterDrop su (unitsURL host) n (firstTok (su (unitsURL host))) = "") :
    (ListUnits su host n).isSome = true := by
  cases hs : su (unitsURL host) with
  | getFail m => simp [ListUnits, hs]
  | readFail m => simp [ListUnits, hs]
  | decodeFail m l => simp [ListUnits, hs]
  | ok p =>
      rw [hs] at h
      simp only [firstTok] at h
      have := paginateDropErr_term su (unitsURL host) n p.nextPageToken p.items h
      simp [ListUnits, hs, Option.isSome_map]
      exact this

theorem ListUnitStates_term (ss : String → Resp UnitState) (host : String) (n : Nat)
    (h : tokIterCheck ss (stateURL host) n (firstTok (ss (stateURL host))) = "") :
    (ListUnitStates ss host n).isSome = true := by
  cases hs : ss (stateURL host) with
  | getFail m => simp [ListUnitStates, hs]
  | readFail m => simp [ListUnitStates, hs]
  | decodeFail m l => simp [ListUnitStates, hs]
  | ok p =>
      rw [hs] at h
      simp only [firstTok] at h
      have := paginateCheckErr_term ss (stateURL host) n p.nextPageToken p.items h
      simp [ListUnitStates, hs, Option.isSome_map]
      exact this

theorem ListMachines_term (sm : String → Resp Machine) (host : String) (n : Nat)
    (h : tokIterCheck sm (machinesURL host) n (firstTok (sm (machinesURL host))) = "") :
    (ListMachines sm host n).isSome = true := by
  cases hs : sm (machinesURL host) with
  | getFail m => simp [ListMachines, hs]
  | readFail m => simp [ListMachines, hs]
  | decodeFail m l => simp [ListMachines, hs]
  | ok p =>
      rw [hs] at h
      simp only [firstTok] at h
      have := paginateCheckErr_term sm (machinesURL host) n p.nextPageToken p.items h
      simp [ListMachines, hs, Option.isSome_map]
      exact this

/-! Concrete fixtures used by the witnesses. -/

/-- A concrete instance unit named web@1. -/
def wUnit1 : Unit :=
  { CurrentState := "launched", DesiredState := "launched", Name := "web@1", Options := [] }

/-- A concrete instance unit named web@2. -/
def wUnit2 : Unit :=
  { CurrentState := "loaded", DesiredState := "launched", Name := "web@2", Options := [] }

/-- A concrete template unit named web@.template. -/
def wTemplate : Unit :=
  { CurrentState := "inactive", DesiredState := "inactive", Name := "web@.template",
    Options := [{ Name := "ExecStart", Section := "Service", Value := "/bin/true" }] }

/-- A concrete unit of another base name, db@1. -/
def wDb : Unit :=
  { CurrentState := "launched", DesiredState := "launched", Name := "db@1", Options := [] }

/-- A concrete unit state. -/
def wState1 : UnitState :=
  { Hash := "h1", MachineID := "m1", Name := "web@1", SystemdActiveState := "active",
    SystemdLoadState := "loaded", SystemdSubState := "running" }

/-- Another concrete unit state. -/
def wState2 : UnitState :=
  { Hash := "h2", MachineID := "m2", Name := "web@2", SystemdActiveState := "inactive",
    SystemdLoadState := "loaded", SystemdSubState := "dead" }

/-- A concrete machine. -/
def wMach1 : Machine := { ID := "m1", PrimaryIP := "10.0.0.1", Metadata := [] }

/-- Another concrete machine. -/
def wMach2 : Machine := { ID := "m2", PrimaryIP := "10.0.0.2", Metadata := [("role", "db")] }

/-- A units server for host h serving two pages of one unit each. -/
def w1su : String → Resp Unit := fun url =>
  if url = unitsURL "h" then Resp.ok { nextPageToken := "pu", items := [wUnit1] }
  else if url = unitsURL "h" ++ "?nextPageToken=pu" then
    Resp.ok { nextPageToken := "", items := [wUnit2] }
  else Resp.getFail "unexpected"

/-- A unit-states server for host h serving two pages of one state each. -/
def w1ss : String → Resp UnitState := fun url =>
  if url = stateURL "h" then Resp.ok { nextPageToken := "ps", items := [wState1] }
  else if url = stateURL "h" ++ "?nextPageToken=ps" then
    Resp.ok { nextPageToken := "", items := [wState2] }
  else Resp.getFail "unexpected"

/-- A machines server for host h serving two pages of one machine each. -/
def w1sm : String → Resp Machine := fun url =>
  if url = machinesURL "h" then Resp.ok { nextPageToken := "pm", items := [wMach1] }
  else if url = machinesURL "h" ++ "?nextPageToken=pm" then
    Resp.ok { nextPageToken := "", items := [wMach2] }
  else Resp.getFail "unexpected"

/-- Claim C1: for every host and every server that serves N unit records
split across pages of size at most k (each intermediate page carrying the
next continuation token and the last page an empty token), ListUnits
returns exactly those N records concatenated in page order, preserving
the server enumeration order within each page, independently of k; and
likewise ListUnitStates and ListMachines. -/
theorem c1_pagination_completeness
    (su : String → Resp Unit) (ss : String → Resp UnitState) (sm : String → Resp Machine)
    (host : String) (k fuel : Nat)
    (chunksU : List (List Unit)) (chunksS : List (List UnitState))
    (chunksM : List (List Machine))
    (hsu : Serves su (unitsURL host) chunksU)
    (hss : Serves ss (stateURL host) chunksS)
    (hsm : Serves sm (machinesURL host) chunksM)
    (hku : ∀ c ∈ chunksU, c.length ≤ k)
    (hks : ∀ c ∈ chunksS, c.length ≤ k)
    (hkm : ∀ c ∈ chunksM, c.length ≤ k)
    (hfu : chunksU.length ≤ fuel)
    (hfs : chunksS.length ≤ fuel)
    (hfm : chunksM.length ≤ fuel) :
    (∃ log, ListUnits su host fuel = some (log, (chunksU.flatten, none))) ∧
    (∃ log, ListUnitStates ss host fuel =
      some (RunResult.out (log, (chunksS.flatten, none)))) ∧
    (∃ log, ListMachines sm host fuel = some (log, (chunksM.flatten, none))) := by
  refine ⟨?_, ?_, ?_⟩
  · cases hsu with
    | @intro t c rest hfirst hloop =>
        have hr : rest.length ≤ fuel := Nat.le_of_succ_le (by simpa using hfu)
        obtain ⟨log, hlog⟩ := paginateDropErr_serves su (unitsURL host) hloop c fuel hr
        refine ⟨unitsURL host :: log, ?_⟩
        simp [ListUnits, hfirst, hlog]
  · cases hss with
    | @intro t c rest hfirst hloop =>
        have hr : rest.length ≤ fuel := Nat.le_of_succ_le (by simpa using hfs)
        obtain ⟨log, hlog⟩ := paginateCheckErr_serves ss (stateURL host) hloop c fuel hr
        refine ⟨stateURL host :: log, ?_⟩
        simp [ListUnitStates, hfirst, hlog]
  · cases hsm with
    | @intro t c rest hfirst hloop =>
        have hr : rest.length ≤ fuel := Nat.le_of_succ_le (by simpa using hfm)
        obtain ⟨log, hlog⟩ := paginateCheckErr_serves sm (machinesURL host) hloop c fuel hr
        refine ⟨machinesURL host :: log, ?_⟩
        simp [ListMachines, hfirst, hlog]

/-- Witness for C1 at a concrete pair of two-page servers with page size
at most 1 and fuel 2. -/
theorem c1_pagination_completeness_witness :
    (∃ log, ListUnits w1su "h" 2 = some (log, ([wUnit1, wUnit2], none))) ∧
    (∃ log, ListUnitStates w1ss "h" 2 =
      some (RunResult.out (log, ([wState1, wState2], none)))) ∧
    (∃ log, ListMachines w1sm "h" 2 = some (log, ([wMach1, wMach2], none))) :=
  c1_pagination_completeness w1su w1ss w1sm "h" 1 2
    [[wUnit1], [wUnit2]] [[wState1], [wState2]] [[wMach1], [wMach2]]
    (@Serves.intro Unit w1su (unitsURL "h") "pu" [wUnit1] [[wUnit2]] (by decide)
      (@ServesLoop.step Unit w1su (unitsURL "h") "pu" "" [wUnit2] [] (by decide) (by decide)
        ServesLoop.done))
    (@Serves.intro UnitState w1ss (stateURL "h") "ps" [wState1] [[wState2]] (by decide)
      (@ServesLoop.step UnitState w1ss (stateURL "h") "ps" "" [wState2] [] (by decide)
        (by decide) ServesLoop.done))
    (@Serves.intro Machine w1sm (machinesURL "h") "pm" [wMach1] [[wMach2]] (by decide)
      (@ServesLoop.step Machine w1sm (machinesURL "h") "pm" "" [wMach2] [] (by decide)
        (by decide) ServesLoop.done))
    (by decide) (by decide) (by decide) (by decide) (by decide) (by decide)

/-- A units server for host h whose first page already carries the empty
token. -/
def wEsu : String → Resp Unit := fun url =>
  if url = unitsURL "h" then Resp.ok { nextPageToken := "", items := [wUnit1] }
  else Resp.getFail "unexpected"

/-- A unit-states server for host h whose first page already carries the
empty token. -/
def wEss : String → Resp UnitState := fun url =>
  if url = stateURL "h" then Resp.ok { nextPageToken := "", items := [wState1] }
  else Resp.getFail "unexpected"

/-- A machines server for host h whose first page already carries the
empty token. -/
def wEsm : String → Resp Machine := fun url =>
  if url = machinesURL "h" then Resp.ok { nextPageToken := "", items := [wMach1] }
  else Resp.getFail "unexpected"

/-- A units server for host h with the token sequence p1, p2, empty. -/
def w2su : String → Resp Unit := fun url =>
  if url = unitsURL "h" then Resp.ok { nextPageToken := "p1", items := [wUnit1] }
  else if url = unitsURL "h" ++ "?nextPageToken=p1" then
    Resp.ok { nextPageToken := "p2", items := [wUnit2] }
  else if url = unitsURL "h" ++ "?nextPageToken=p2" then
    Resp.ok { nextPageToken := "", items := [wDb] }
  else Resp.getFail "unexpected"

/-- A unit-states server for host h with the token sequence p1, p2, empty. -/
def w2ss : String → Resp UnitState := fun url =>
  if url = stateURL "h" then Resp.ok { nextPageToken := "p1", items := [wState1] }
  else if url = stateURL "h" ++ "?nextPageToken=p1" then
    Resp.ok { nextPageToken := "p2", items := [wState2] }
  else if url = stateURL "h" ++ "?nextPageToken=p2" then
    Resp.ok { nextPageToken := "", items := [] }
  else Resp.getFail "unexpected"

/-- A machines server for host h with the token sequence p1, p2, empty. -/
def w2sm : String → Resp Machine := fun url =>
  if url = machinesURL "h" then Resp.ok { nextPageToken := "p1", items := [wMach1] }
  else if url = machinesURL "h" ++ "?nextPageToken=p1" then
    Resp.ok { nextPageToken := "p2", items := [wMach2] }
  else if url = machinesURL "h" ++ "?nextPageToken=p2" then
    Resp.ok { nextPageToken := "", items := [] }
  else Resp.getFail "unexpected"

/-- Claim C2: for each paginated listing operation (ListUnits,
ListUnitStates, ListMachines), a response whose nextPageToken is the
empty string terminates the pagination loop (exactly one request in
total when it is the first response); a server returning the fixed token
sequence t1, t2, empty causes exactly 3 GET requests; and when the
server's continuation-token sequence eventually reaches the empty
string, the operation terminates (some fuel suffices). -/
theorem c2_pagination_termination
    (su0 : String → Resp Unit) (ss0 : String → Resp UnitState) (sm0 : String → Resp Machine)
    (su : String → Resp Unit) (ss : String → Resp UnitState) (sm : String → Resp Machine)
    (host t1 t2 : String) (fuel : Nat)
    (ua ub uc : List Unit) (sa sb sc : List UnitState) (ma mb mc : List Machine) :
    (su0 (unitsURL host) = Resp.ok { nextPageToken := "", items := ua } →
      ListUnits su0 host fuel = some ([unitsURL host], (ua, none))) ∧
    (ss0 (stateURL host) = Resp.ok { nextPageToken := "", items := sa } →
      ListUnitStates ss0 host fuel = some (RunResult.out ([stateURL host], (sa, none)))) ∧
    (sm0 (machinesURL host) = Resp.ok { nextPageToken := "", items := ma } →
      ListMachines sm0 host fuel = some ([machinesURL host], (ma, none))) ∧
    (t1 ≠ "" → t2 ≠ "" →
      su (unitsURL host) = Resp.ok { nextPageToken := t1, items := ua } →
      su (unitsURL host ++ "?nextPageToken=" ++ t1) =
        Resp.ok { nextPageToken := t2, items := ub } →
      su (unitsURL host ++ "?nextPageToken=" ++ t2) =
        Resp.ok { nextPageToken := "", items := uc } →
      ListUnits su host (fuel + 2) =
        some ([unitsURL host, unitsURL host ++ "?nextPageToken=" ++ t1,
          unitsURL host ++ "?nextPageToken=" ++ t2], (ua ++ ub ++ uc, none))) ∧
    (t1 ≠ "" → t2 ≠ "" →
      ss (stateURL host) = Resp.ok { nextPageToken := t1, items := sa } →
      ss (stateURL host ++ "?nextPageToken=" ++ t1) =
        Resp.ok { nextPageToken := t2, items := sb } →
      ss (stateURL host ++ "?nextPageToken=" ++ t2) =
        Resp.ok { nextPageToken := "", items := sc } →
      ListUnitStates ss host (fuel + 2) =
        some (RunResult.out ([stateURL host, stateURL host ++ "?nextPageToken=" ++ t1,
          stateURL host ++ "?nextPageToken=" ++ t2], (sa ++ sb ++ sc, none)))) ∧
    (t1 ≠ "" → t2 ≠ "" →
      sm (machinesURL host) = Resp.ok { nextPageToken := t1, items := ma } →
      sm (machinesURL host ++ "?nextPageToken=" ++ t1) =
        Resp.ok { nextPageToken := t2, items := mb } →
      sm (machinesURL host ++ "?nextPageToken=" ++ t2) =
        Resp.ok { nextPageToken := "", items := mc } →
      ListMachines sm host (fuel + 2) =
        some ([machinesURL host, machinesURL host ++ "?nextPageToken=" ++ t1,
          machinesURL host ++ "?nextPageToken=" ++ t2], (ma ++ mb ++ mc, none))) ∧
    ((∃ n, tokIterDrop su (unitsURL host) n (firstTok (su (unitsURL host))) = "") →
      ∃ m, (ListUnits su host m).isSome = true) ∧
    ((∃ n, tokIterCheck ss (stateURL host) n (firstTok (ss (stateURL host))) = "") →
      ∃ m, (ListUnitStates ss host m).isSome = true) ∧
    ((∃ n, tokIterCheck sm (machinesURL host) n (firstTok (sm (machinesURL host))) = "") →
      ∃ m, (ListMachines sm host m).isSome = true) := by
  refine ⟨?_, ?_, ?_, ?_, ?_, ?_, ?_, ?_, ?_⟩
  · intro h; simp [ListUnits, h, paginateDropErr_empty]
  · intro h; simp [ListUnitStates, h, paginateCheckErr_empty]
  · intro h; simp [ListMachines, h, paginateCheckErr_empty]
  · intro h1 h2 hf hA hB
    have h3 := paginateDropErr_two su (unitsURL host) fuel t1 t2 ub uc h1 h2 hA hB ua
    simp [ListUnits, hf, h3]
  · intro h1 h2 hf hA hB
    have h3 := paginateCheckErr_two ss (stateURL host) fuel t1 t2 sb sc h1 h2 hA hB sa
    simp [ListUnitStates, hf, h3]
  · intro h1 h2 hf hA hB
    have h3 := paginateCheckErr_two sm (machinesURL host) fuel t1 t2 mb mc h1 h2 hA hB ma
    simp [ListMachines, hf, h3]
  · rintro ⟨n, hn⟩; exact ⟨n, ListUnits_term su host n hn⟩
  · rintro ⟨n, hn⟩; exact ⟨n, ListUnitStates_term ss host n hn⟩
  · rintro ⟨n, hn⟩; exact ⟨n, ListMachines_term sm host n hn⟩

/-- Witness for C2: concrete single-page servers and concrete three-token
servers, with the termination precondition discharged at 2 iterations. -/
theorem c2_pagination_termination_witness :
    ListUnits wEsu "h" 0 = some ([unitsURL "h"], ([wUnit1], none)) ∧
    ListUnitStates wEss "h" 0 = some (RunResult.out ([stateURL "h"], ([wState1], none))) ∧
    ListMachines wEsm "h" 0 = some ([machinesURL "h"], ([wMach1], none)) ∧
    ListUnits w2su "h" 2 =
      some ([unitsURL "h", unitsURL "h" ++ "?nextPageToken=p1",
        unitsURL "h" ++ "?nextPageToken=p2"], ([wUnit1, wUnit2, wDb], none)) ∧
    ListUnitStates w2ss "h" 2 =
      some (RunResult.out ([stateURL "h", stateURL "h" ++ "?nextPageToken=p1",
        stateURL "h" ++ "?nextPageToken=p2"], ([wState1, wState2], none))) ∧
    ListMachines w2sm "h" 2 =
      some ([machinesURL "h", machinesURL "h" ++ "?nextPageToken=p1",
        machinesURL "h" ++ "?nextPageToken=p2"], ([wMach1, wMach2], none)) ∧
    (∃ m, (ListUnits w2su "h" m).isSome = true) ∧
    (∃ m, (ListUnitStates w2ss "h" m).isSome = true) ∧
    (∃ m, (ListMachines w2sm "h" m).isSome = true) := by
  have h := c2_pagination_termination wEsu wEss wEsm w2su w2ss w2sm "h" "p1" "p2" 0
    [wUnit1] [wUnit2] [wDb] [wState1] [wState2] [] [wMach1] [wMach2] []
  refine ⟨h.1 (by decide), h.2.1 (by decide), h.2.2.1 (by decide), ?_, ?_, ?_, ?_, ?_, ?_⟩
  · have := h.2.2.2.1 (by decide) (by decide) (by decide) (by decide) (by decide)
    simpa using this
  · have := h.2.2.2.2.1 (by decide) (by decide) (by decide) (by decide) (by decide)
    simpa using this
  · have := h.2.2.2.2.2.1 (by decide) (by decide) (by decide) (by decide) (by decide)
    simpa using this
  · exact h.2.2.2.2.2.2.1 ⟨2, by decide⟩
  · exact h.2.2.2.2.2.2.2.1 ⟨2, by decide⟩
  · exact h.2.2.2.2.2.2.2.2 ⟨2, by decide⟩

/-- A unit-states server for host h whose first page body is malformed
JSON, which the first-page path of ListUnitStates answers with
log.Fatal. -/
def wBadSS : String → Resp UnitState := fun url =>
  if url = stateURL "h" then
    Resp.decodeFail "invalid json" { nextPageToken := "", items := [] }
  else Resp.getFail "unexpected"

/-- A machines server for host h whose single request fails at the
transport level. -/
def wBadSM : String → Resp Machine := fun url =>
  if url = machinesURL "h" then Resp.getFail "connection refused"
  else Resp.getFail "unexpected"

/-- Claim C3 (amended): whenever one of the three fetches of
GetStateOfFleet reports a failure as a returned error, GetStateOfFleet
returns exactly that error with all three collections empty, even when
earlier fetches had succeeded; a read or decode failure on the first
unit-states page instead aborts the process (log.Fatal) and returns
nothing; and any returned snapshot that carries an error carries three
empty collections. -/
theorem c3_snapshot_fail_fast
    (su : String → Resp Unit) (ss : String → Resp UnitState) (sm : String → Resp Machine)
    (host : String) (fuel : Nat) :
    (∀ log us e, ListUnits su host fuel = some (log, (us, some e)) →
      GetStateOfFleet su ss sm host fuel = some (RunResult.out ([], [], [], some e))) ∧
    (∀ log us log2 xs e, ListUnits su host fuel = some (log, (us, none)) →
      ListUnitStates ss host fuel = some (RunResult.out (log2, (xs, some e))) →
      GetStateOfFleet su ss sm host fuel = some (RunResult.out ([], [], [], some e))) ∧
    (∀ log us log2 xs log3 ms e, ListUnits su host fuel = some (log, (us, none)) →
      ListUnitStates ss host fuel = some (RunResult.out (log2, (xs, none))) →
      ListMachines sm host fuel = some (log3, (ms, some e)) →
      GetStateOfFleet su ss sm host fuel = some (RunResult.out ([], [], [], some e))) ∧
    (∀ log us m, ListUnits su host fuel = some (log, (us, none)) →
      ListUnitStates ss host fuel = some (RunResult.fatal m) →
      GetStateOfFleet su ss sm host fuel = some (RunResult.fatal m)) ∧
    (∀ us sts ms e,
      GetStateOfFleet su ss sm host fuel = some (RunResult.out (us, sts, ms, some e)) →
      us = [] ∧ sts = [] ∧ ms = []) := by
  refine ⟨?_, ?_, ?_, ?_, ?_⟩
  · intro log us e h
    simp [GetStateOfFleet, h]
  · intro log us log2 xs e h1 h2
    simp [GetStateOfFleet, h1, h2]
  · intro log us log2 xs log3 ms e h1 h2 h3
    simp [GetStateOfFleet, h1, h2, h3]
  · intro log us m h1 h2
    simp [GetStateOfFleet, h1, h2]
  · intro us sts ms e h
    rcases hu : ListUnits su host fuel with _ | ⟨log1, us1, oe1⟩
    · simp [GetStateOfFleet, hu] at h
    · cases oe1 with
      | some e1 =>
          simp [GetStateOfFleet, hu] at h
          obtain ⟨h1, h2, h3, _⟩ := h
          exact ⟨h1, h2, h3⟩
      | none =>
          rcases hst : ListUnitStates ss host fuel with _ | rr
          · simp [GetStateOfFleet, hu, hst] at h
          · cases rr with
            | fatal m => simp [GetStateOfFleet, hu, hst] at h
            | out pr =>
                obtain ⟨log2, sts1, oe2⟩ := pr
                cases oe2 with
                | some e2 =>
                    simp [GetStateOfFleet, hu, hst] at h
                    obtain ⟨h1, h2, h3, _⟩ := h
                    exact ⟨h1, h2, h3⟩
                | none =>
                    rcases hm : ListMachines sm host fuel with _ | ⟨log3, ms1, oe3⟩
                    · simp [GetStateOfFleet, hu, hst, hm] at h
                    · cases oe3 with
                      | some e3 =>
                          simp [GetStateOfFleet, hu, hst, hm] at h
                          obtain ⟨h1, h2, h3, _⟩ := h
                          exact ⟨h1, h2, h3⟩
                      | none => simp [GetStateOfFleet, hu, hst, hm] at h

/-- Counterexample for C3 as stated: when the first unit-states page is
malformed JSON (a decode failure of the unit-states fetch), the source
calls log.Fatal, so GetStateOfFleet aborts instead of returning that
decode error with empty collections. -/
theorem c3_snapshot_fail_fast_counterexample :
    GetStateOfFleet wEsu wBadSS wEsm "h" 0 = some (RunResult.fatal "invalid json") ∧
    GetStateOfFleet wEsu wBadSS wEsm "h" 0 ≠
      some (RunResult.out ([], [], [], some (FleetError.decodeErr "invalid json"))) := by
  have hval : GetStateOfFleet wEsu wBadSS wEsm "h" 0 =
      some (RunResult.fatal "invalid json") := rfl
  refine ⟨hval, ?_⟩
  rw [hval]
  intro hcon
  exact RunResult.noConfusion (Option.some.inj hcon)

/-- Witness for C3 (amended): the machines fetch fails at the transport
level after units and unit-states succeeded, and GetStateOfFleet returns
only that error. -/
theorem c3_snapshot_fail_fast_witness :
    GetStateOfFleet wEsu wEss wBadSM "h" 0 =
      some (RunResult.out ([], [], [], some (FleetError.transportErr "connection refused"))) :=
  (c3_snapshot_fail_fast wEsu wEss wBadSM "h" 0).2.2.1
    [unitsURL "h"] [wUnit1] [stateURL "h"] [wState1] [machinesURL "h"] []
    (FleetError.transportErr "connection refused") (by decide) (by decide) (by decide)

/-- A units server for host h serving the spec example page: a template,
two instances of web and one db unit. -/
def wCsu : String → Resp Unit := fun url =>
  if url = unitsURL "h" then
    Resp.ok { nextPageToken := "", items := [wTemplate, wUnit1, wUnit2, wDb] }
  else Resp.getFail "unexpected"

/-- A units server for host h serving only the db unit. -/
def wDbSrv : String → Resp Unit := fun url =>
  if url = unitsURL "h" then Resp.ok { nextPageToken := "", items := [wDb] }
  else Resp.getFail "unexpected"

/-- Claim C4: over any successfully fetched list, ListUnitsByName returns
as instances exactly the units whose name starts with the base name
followed by the at sign and does not contain the template marker, in
fetch order, and as template the last matching unit containing the
template marker (the zero Unit when none exists); non-matching units are
excluded. -/
theorem c4_template_instance_correlation
    (server : String → Resp Unit) (host name : String) (fuel : Nat)
    (log : List String) (allUnits : List Unit)
    (h : ListUnits server host fuel = some (log, (allUnits, none))) :
    ListUnitsByName server host name fuel =
      some (templateSpec allUnits name, instancesSpec allUnits name, none) := by
  simp [ListUnitsByName, h, correlate_eq]

/-- Witness for C4 at the spec example: units web@.template, web@1,
web@2, db@1 with base name web give template web@.template and instances
web@1, web@2 in order. -/
theorem c4_template_instance_correlation_witness :
    ListUnitsByName wCsu "h" "web" 0 = some (wTemplate, [wUnit1, wUnit2], none) :=
  c4_template_instance_correlation wCsu "h" "web" 0 [unitsURL "h"]
    [wTemplate, wUnit1, wUnit2, wDb] (by decide)

/-- Claim C8: a base name with zero matching units makes ListUnitsByName
return the zero-valued template and an empty instance list with no
error. -/
theorem c8_no_match_correlation
    (server : String → Resp Unit) (host name : String) (fuel : Nat)
    (log : List String) (allUnits : List Unit)
    (h : ListUnits server host fuel = some (log, (allUnits, none)))
    (hnm : ∀ u ∈ allUnits, isMatch name u = false) :
    ListUnitsByName server host name fuel = some (Unit.zero, [], none) := by
  have h1 : templatesOf allUnits name = [] :=
    filter_match_empty name (fun u => isTemplateName u) allUnits hnm
  have h2 : instancesSpec allUnits name = [] :=
    filter_match_empty name (fun u => ! isTemplateName u) allUnits hnm
  simp [ListUnitsByName, h, correlate_eq, templateSpec, h1, h2, lastD]

/-- Witness for C8: a fetched list holding only db@1 with base name web
yields the zero template, no instances and no error. -/
theorem c8_no_match_correlation_witness :
    ListUnitsByName wDbSrv "h" "web" 0 = some (Unit.zero, [], none) :=
  c8_no_match_correlation wDbSrv "h" "web" 0 [unitsURL "h"] [wDb] (by decide) (by decide)

/-! Status-mapping helper lemmas for the single-request operations. -/

theorem CreateUnit_eq (s : Nat) (b : RawBody PUnit) :
    CreateUnit (HttpResp.resp s b) = if s = 201 then none else some (handleError b) := by
  simp only [CreateUnit]
  split_ifs <;> first | rfl | omega

theorem ModifyDesiredState_eq (s : Nat) (b : RawBody PUnit) :
    ModifyDesiredState (HttpResp.resp s b) =
      if s = 204 then none else some (handleError b) := by
  simp only [ModifyDesiredState]
  split_ifs <;> first | rfl | omega

theorem Destroy_eq (s : Nat) (b : RawBody PUnit) :
    Destroy (HttpResp.resp s b) = if s = 204 then none else some (handleError b) := by
  simp only [Destroy]
  split_ifs <;> first | rfl | omega

theorem GetUnit_err_eq (s : Nat) (b : RawBody Unit) (h : s ≠ 200) :
    GetUnit (HttpResp.resp s b) = (Unit.zero, some (handleError b)) := by
  simp only [GetUnit]
  split_ifs <;> rfl

/-- Claim C5: CreateUnit succeeds exactly on status 201, and every
non-201 status (400 and 409 among them) returns handleError of the
response body, that is the remote error decoded from it;
ModifyDesiredState succeeds exactly on status 204 with every non-204
status (400 among them) mapped the same way; Destroy succeeds exactly on
status 204 and maps every other status to the error decoded from the
body. -/
theorem c5_mutation_status_mapping (s : Nat) (b : RawBody PUnit) (c : Int) (m : String) :
    (CreateUnit (HttpResp.resp s b) = none ↔ s = 201) ∧
    (s ≠ 201 → CreateUnit (HttpResp.resp s b) = some (handleError b)) ∧
    (ModifyDesiredState (HttpResp.resp s b) = none ↔ s = 204) ∧
    (s ≠ 204 → ModifyDesiredState (HttpResp.resp s b) = some (handleError b)) ∧
    (Destroy (HttpResp.resp s b) = none ↔ s = 204) ∧
    (s ≠ 204 → Destroy (HttpResp.resp s b) = some (handleError b)) ∧
    (handleError (RawBody.value (ShapeDec.ok PUnit.unit)
      (EnvDec.ok { Code := c, Message := m })) = FleetError.remoteErr c m) := by
  refine ⟨?_, ?_, ?_, ?_, ?_, ?_, rfl⟩
  · rw [CreateUnit_eq]; by_cases h : s = 201 <;> simp [h]
  · intro h; rw [CreateUnit_eq, if_neg h]
  · rw [ModifyDesiredState_eq]; by_cases h : s = 204 <;> simp [h]
  · intro h; rw [ModifyDesiredState_eq, if_neg h]
  · rw [Destroy_eq]; by_cases h : s = 204 <;> simp [h]
  · intro h; rw [Destroy_eq, if_neg h]

/-- A concrete body carrying the error envelope with code 500. -/
def wEnvBody : RawBody PUnit :=
  RawBody.value (ShapeDec.ok PUnit.unit) (EnvDec.ok { Code := 500, Message := "server error" })

/-- Witness for C5 at statuses 201, 204 and 500 with a concrete envelope
body. -/
theorem c5_mutation_status_mapping_witness :
    CreateUnit (HttpResp.resp 201 wEnvBody) = none ∧
    CreateUnit (HttpResp.resp 500 wEnvBody) = some (handleError wEnvBody) ∧
    ModifyDesiredState (HttpResp.resp 204 wEnvBody) = none ∧
    ModifyDesiredState (HttpResp.resp 500 wEnvBody) = some (handleError wEnvBody) ∧
    Destroy (HttpResp.resp 204 wEnvBody) = none ∧
    Destroy (HttpResp.resp 500 wEnvBody) = some (handleError wEnvBody) := by
  refine ⟨?_, ?_, ?_, ?_, ?_, ?_⟩
  · exact (c5_mutation_status_mapping 201 wEnvBody 0 "").1.mpr rfl
  · exact (c5_mutation_status_mapping 500 wEnvBody 0 "").2.1 (by decide)
  · exact (c5_mutation_status_mapping 204 wEnvBody 0 "").2.2.1.mpr rfl
  · exact (c5_mutation_status_mapping 500 wEnvBody 0 "").2.2.2.1 (by decide)
  · exact (c5_mutation_status_mapping 204 wEnvBody 0 "").2.2.2.2.1.mpr rfl
  · exact (c5_mutation_status_mapping 500 wEnvBody 0 "").2.2.2.2.2.1 (by decide)

/-- A units server for host h whose first page is fine and carries token
t1, while the page for t1 is malformed JSON (a syntax error leaves the
freshly zeroed destination untouched). -/
def wC6su : String → Resp Unit := fun url =>
  if url = unitsURL "h" then Resp.ok { nextPageToken := "t1", items := [wUnit1] }
  else if url = unitsURL "h" ++ "?nextPageToken=t1" then
    Resp.decodeFail "invalid json" { nextPageToken := "", items := [] }
  else Resp.getFail "unexpected"

/-- Claim C6 (code bug): in the source, ListUnits assigns the loop-page
Unmarshal error to a loop-scoped err and returns the function-scoped one,
so a malformed follow-up page yields the truncated accumulated list with
a nil error; and the GetUnit of src/fleet/fleet.go returns (unit, nil)
even when the Unmarshal of a status-200 body failed.  Both evaluations
exhibit the silently dropped decode error the claim forbids. -/
theorem c6_decode_error_dropped :
    ListUnits wC6su "h" 1 =
      some ([unitsURL "h", unitsURL "h" ++ "?nextPageToken=t1"], ([wUnit1], none)) ∧
    GetUnitFleetGo (HttpResp.resp 200 (RawBody.value
      (ShapeDec.fail "invalid json" Unit.zero) (EnvDec.fail "invalid json"))) =
      RunResult.out (Unit.zero, none) := by
  exact ⟨by decide, by decide⟩

/-- Claim C7: whenever a response status indicates failure per the
per-operation mapping and the body carries the error envelope, the
operation surfaces the remote error with the service-provided code and
message, whose text is exactly the code, a colon and a space, and the
message. -/
theorem c7_remote_error_text (s : Nat) (c : Int) (m : String)
    (d : ShapeDec PUnit) (du : ShapeDec Unit) :
    (s ≠ 201 → CreateUnit (HttpResp.resp s (RawBody.value d
      (EnvDec.ok { Code := c, Message := m }))) = some (FleetError.remoteErr c m)) ∧
    (s ≠ 204 → ModifyDesiredState (HttpResp.resp s (RawBody.value d
      (EnvDec.ok { Code := c, Message := m }))) = some (FleetError.remoteErr c m)) ∧
    (s ≠ 204 → Destroy (HttpResp.resp s (RawBody.value d
      (EnvDec.ok { Code := c, Message := m }))) = some (FleetError.remoteErr c m)) ∧
    (s ≠ 200 → GetUnit (HttpResp.resp s (RawBody.value du
      (EnvDec.ok { Code := c, Message := m }))) =
      (Unit.zero, some (FleetError.remoteErr c m))) ∧
    (FleetError.remoteErr c m).text = toString c ++ ": " ++ m := by
  refine ⟨?_, ?_, ?_, ?_, rfl⟩
  · intro h; rw [CreateUnit_eq, if_neg h]; rfl
  · intro h; rw [ModifyDesiredState_eq, if_neg h]; rfl
  · intro h; rw [Destroy_eq, if_neg h]; rfl
  · intro h; rw [GetUnit_err_eq s _ h]; rfl

/-- Witness for C7 at status 500 with envelope code 7 and message boom. -/
theorem c7_remote_error_text_witness :
    CreateUnit (HttpResp.resp 500 (RawBody.value (ShapeDec.ok PUnit.unit)
      (EnvDec.ok { Code := 7, Message := "boom" }))) =
      some (FleetError.remoteErr 7 "boom") ∧
    ModifyDesiredState (HttpResp.resp 500 (RawBody.value (ShapeDec.ok PUnit.unit)
      (EnvDec.ok { Code := 7, Message := "boom" }))) =
      some (FleetError.remoteErr 7 "boom") ∧
    Destroy (HttpResp.resp 500 (RawBody.value (ShapeDec.ok PUnit.unit)
      (EnvDec.ok { Code := 7, Message := "boom" }))) =
      some (FleetError.remoteErr 7 "boom") ∧
    GetUnit (HttpResp.resp 404 (RawBody.value (ShapeDec.ok Unit.zero)
      (EnvDec.ok { Code := 7, Message := "boom" }))) =
      (Unit.zero, some (FleetError.remoteErr 7 "boom")) ∧
    (FleetError.remoteErr 7 "boom").text = "7: boom" := by
  have h1 := c7_remote_error_text 500 7 "boom" (ShapeDec.ok PUnit.unit) (ShapeDec.ok Unit.zero)
  have h2 := c7_remote_error_text 404 7 "boom" (ShapeDec.ok PUnit.unit) (ShapeDec.ok Unit.zero)
  exact ⟨h1.1 (by decide), h1.2.1 (by decide), h1.2.2.1 (by decide),
    h2.2.2.2.1 (by decide), h1.2.2.2.2⟩

/-- A unit-states server for host h answering the machineID and unitName
filters with single pages that carry a non-empty token, and the
unfiltered state URL with a two-page chain. -/
def wFss : String → Resp UnitState := fun url =>
  if url = stateURL "h" ++ "?machineID=m1" then
    Resp.ok { nextPageToken := "more", items := [wState1] }
  else if url = stateURL "h" ++ "?unitName=web@1" then
    Resp.ok { nextPageToken := "more", items := [wState2] }
  else if url = stateURL "h" then Resp.ok { nextPageToken := "n1", items := [wState1] }
  else if url = stateURL "h" ++ "?nextPageToken=n1" then
    Resp.ok { nextPageToken := "", items := [wState2] }
  else Resp.getFail "unexpected"

/-- Claim C9: GetUnitStatesByMachineID and GetUnitStatesByUnitName issue
exactly one GET request each and return only the states of that single
response page, ignoring a non-empty nextPageToken, while the unfiltered
ListUnitStates follows a non-empty token with a second request. -/
theorem c9_filtered_states_single_request
    (server : String → Resp UnitState) (host machineID unitName t : String)
    (p q : Page UnitState) (xs ys : List UnitState) (fuel : Nat) :
    ((GetUnitStatesByMachineID server host machineID).1 =
      [stateURL host ++ "?machineID=" ++ machineID]) ∧
    (server (stateURL host ++ "?machineID=" ++ machineID) = Resp.ok p →
      GetUnitStatesByMachineID server host machineID =
        ([stateURL host ++ "?machineID=" ++ machineID], (p.items, none))) ∧
    ((GetUnitStatesByUnitName server host unitName).1 =
      [stateURL host ++ "?unitName=" ++ unitName]) ∧
    (server (stateURL host ++ "?unitName=" ++ unitName) = Resp.ok q →
      GetUnitStatesByUnitName server host unitName =
        ([stateURL host ++ "?unitName=" ++ unitName], (q.items, none))) ∧
    (t ≠ "" →
      server (stateURL host) = Resp.ok { nextPageToken := t, items := xs } →
      server (stateURL host ++ "?nextPageToken=" ++ t) =
        Resp.ok { nextPageToken := "", items := ys } →
      ListUnitStates server host (fuel + 1) =
        some (RunResult.out ([stateURL host, stateURL host ++ "?nextPageToken=" ++ t],
          (xs ++ ys, none)))) := by
  refine ⟨?_, ?_, ?_, ?_, ?_⟩
  · cases hs : server (stateURL host ++ "?machineID=" ++ machineID) <;>
      simp [GetUnitStatesByMachineID, hs]
  · intro h; simp [GetUnitStatesByMachineID, h]
  · cases hs : server (stateURL host ++ "?unitName=" ++ unitName) <;>
      simp [GetUnitStatesByUnitName, hs]
  · intro h; simp [GetUnitStatesByUnitName, h]
  · intro ht hf hA
    have hstep := paginateCheckErr_ok_step server (stateURL host) fuel t ht _ hA xs
    simp [ListUnitStates, hf, hstep, paginateCheckErr_empty]

/-- Witness for C9 at a concrete server whose filtered responses carry a
non-empty continuation token that is ignored. -/
theorem c9_filtered_states_single_request_witness :
    GetUnitStatesByMachineID wFss "h" "m1" =
      ([stateURL "h" ++ "?machineID=m1"], ([wState1], none)) ∧
    GetUnitStatesByUnitName wFss "h" "web@1" =
      ([stateURL "h" ++ "?unitName=web@1"], ([wState2], none)) ∧
    ListUnitStates wFss "h" 1 =
      some (RunResult.out ([stateURL "h", stateURL "h" ++ "?nextPageToken=n1"],
        ([wState1, wState2], none))) := by
  have h := c9_filtered_states_single_request wFss "h" "m1" "web@1" "n1"
    { nextPageToken := "more", items := [wState1] }
    { nextPageToken := "more", items := [wState2] } [wState1] [wState2] 0
  exact ⟨h.2.1 (by decide), h.2.2.2.1 (by decide),
    h.2.2.2.2 (by decide) (by decide) (by decide)⟩

/-- Claim C10: GetUnit is a pure function of the server response, so two
invocations against identical responses return identical decoded
records; on a status-200 response whose body decodes to a unit, the
result is exactly that unit with a nil error. -/
theorem c10_get_unit_deterministic (r r2 : HttpResp Unit) (u : Unit) (d : EnvDec)
    (h : r = r2) :
    GetUnit r = GetUnit r2 ∧
    GetUnit (HttpResp.resp 200 (RawBody.value (ShapeDec.ok u) d)) = (u, none) := by
  subst h
  exact ⟨rfl, rfl⟩

/-- Witness for C10 at a concrete status-200 response. -/
theorem c10_get_unit_deterministic_witness :
    GetUnit (HttpResp.resp 200 (RawBody.value (ShapeDec.ok wUnit1) (EnvDec.fail "no envelope")))
      = GetUnit (HttpResp.resp 200 (RawBody.value (ShapeDec.ok wUnit1)
        (EnvDec.fail "no envelope"))) ∧
    GetUnit (HttpResp.resp 200 (RawBody.value (ShapeDec.ok wUnit1) (EnvDec.fail "no envelope")))
      = (wUnit1, none) :=
  c10_get_unit_deterministic
    (HttpResp.resp 200 (RawBody.value (ShapeDec.ok wUnit1) (EnvDec.fail "no envelope")))
    (HttpResp.resp 200 (RawBody.value (ShapeDec.ok wUnit1) (EnvDec.fail "no envelope")))
    wUnit1 (EnvDec.fail "no envelope") rfl

end Fleet
